import Mathlib

/-!
Verification of the bluetooth sensor temperature logging program
(`logger.py`, `H5074_logger.py`, `adscanner.py`).

The Python code is shallowly embedded: dictionaries become association
lists (insertion ordered, first-key-wins lookup, in-place overwrite on
re-assignment, exactly as CPython dictionaries behave), byte strings
become lists of naturals below 256, Python floats produced by the
decoders (16-bit readings divided by 100.0, all exactly representable
operations aside) are modelled as rationals, raised exceptions become
Except results, and the wall clock is passed explicitly.
-/

/-- A Python value as it appears in the decoded records: an int, a float
(modelled as a rational) or a string. -/
inductive PyVal where
  | pint (n : Int)
  | pfloat (q : Rat)
  | pstr (s : String)
deriving DecidableEq, Repr

/-- Python dictionary membership and indexing, `k in d` / `d[k]`:
first entry with the key (keys of a real Python dict are unique). -/
def pyLookup {κ α : Type} [DecidableEq κ] (k : κ) : List (κ × α) → Option α
  | [] => none
  | p :: rest => if p.1 = k then some p.2 else pyLookup k rest

/-- Python dictionary assignment `d[k] = v`: overwrites the value in
place when the key exists (keeping its position), appends otherwise. -/
def dictInsert {κ α : Type} [DecidableEq κ] : List (κ × α) → κ → α → List (κ × α)
  | [], k, v => [(k, v)]
  | p :: rest, k, v => if p.1 = k then (k, v) :: rest else p :: dictInsert rest k v

/-- `int.from_bytes(data[i:i+2], byteorder=little)`: the little-endian
16-bit value of the two bytes at offsets `i` and `i+1`. -/
def leSlice (data : List Nat) (i : Nat) : Nat :=
  data.getD i 0 + 256 * data.getD (i + 1) 0

/-- Lower-case hexadecimal digit, as produced by `bytes.hex()`. -/
def hexDigit (n : Nat) : Char :=
  if n < 10 then Char.ofNat (48 + n) else Char.ofNat (87 + n)

/-- Two lower-case hexadecimal digits of one byte. -/
def byteHex (b : Nat) : String :=
  String.mk [hexDigit (b / 16 % 16), hexDigit (b % 16)]

/-- `data.hex()`: the whole payload re-encoded as lower-case hex. -/
def bytesHex (data : List Nat) : String :=
  String.join (data.map byteHex)

/-- Manufacturer data of one advertisement: company id to byte string,
`advertisement_data.manufacturer_data`. -/
abbrev MfrData : Type := List (Nat × List Nat)

/-- An intermediate decoded record, a Python dict of mixed values. -/
abbrev PyRecord : Type := List (String × PyVal)

/-- `BLELogger._decode_govee_h5074` (logger.py lines 202 to 220): needs
company id 60552 with at least 6 bytes; temperature and humidity are the
little-endian 16-bit words at offsets 1 and 3 divided by 100.0, battery
is the byte at offset 5, and the raw payload is kept as hex. -/
def decodeGovee (md : MfrData) : Option PyRecord :=
  match pyLookup 60552 md with
  | none => none
  | some data =>
    if data.length < 6 then none
    else
      some [("temperature", PyVal.pfloat ((leSlice data 1 : Rat) / 100)),
            ("humidity", PyVal.pfloat ((leSlice data 3 : Rat) / 100)),
            ("battery", PyVal.pint (data.getD 5 0)),
            ("raw_hex", PyVal.pstr (bytesHex data))]

/-- `GoveeSensor.decode_sensor_data` (H5074_logger.py lines 76 to 101):
same decoding, with a current-timestamp field added to the record. The
timestamp string is passed in explicitly (the source reads the clock). -/
def decodeSensorData (md : MfrData) (ts : String) : Option PyRecord :=
  match pyLookup 60552 md with
  | none => none
  | some data =>
    if data.length < 6 then none
    else
      some [("temperature", PyVal.pfloat ((leSlice data 1 : Rat) / 100)),
            ("humidity", PyVal.pfloat ((leSlice data 3 : Rat) / 100)),
            ("battery", PyVal.pint (data.getD 5 0)),
            ("timestamp", PyVal.pstr ts),
            ("raw_hex", PyVal.pstr (bytesHex data))]

/-- One field mapping of a device entry (`fields` values). -/
structure FieldSpec where
  source_field : String
  enabled : Bool
  description : String
deriving DecidableEq, Repr

/-- One device entry, as built by `DeviceConfig.add_device`. The scan
filter and decoder sub-dictionaries are string valued in every
configuration the program itself writes. -/
structure Device where
  key : String
  description : String
  mac_address : String
  device_type : String
  scan_filter : List (String × String)
  decoder : List (String × String)
  fields : List (String × FieldSpec)
deriving DecidableEq, Repr

/-- The registry, `DeviceConfig.config`: the devices list of the JSON
document. -/
structure Config where
  devices : List Device
deriving DecidableEq, Repr

/-- `DeviceConfig.get_device_by_key` (logger.py lines 32 to 37). -/
def getDeviceByKey (cfg : Config) (key : String) : Option Device :=
  cfg.devices.find? (fun d => d.key == key)

/-- `DeviceConfig.get_device_by_mac` (logger.py lines 39 to 45):
case-insensitive comparison through upper-casing both sides. -/
def getDeviceByMac (cfg : Config) (mac : String) : Option Device :=
  cfg.devices.find? (fun d => d.mac_address.toUpper == mac.toUpper)

/-- `DeviceConfig.add_device` (logger.py lines 47 to 64). Returns the
result (the new entry, or the raised ValueError), the registry
afterwards, and the list of registry snapshots passed to
`save_config`. -/
def addDevice (cfg : Config) (key description mac_address device_type : String)
    (scan_filter : List (String × String)) :
    Except String Device × Config × List Config :=
  match getDeviceByKey cfg key with
  | some _ =>
    (Except.error ("Device with key " ++ key ++ " already exists"), cfg, [])
  | none =>
    let dev : Device :=
      { key := key, description := description, mac_address := mac_address,
        device_type := device_type, scan_filter := scan_filter,
        decoder := [], fields := [] }
    let cfg2 : Config := ⟨cfg.devices ++ [dev]⟩
    (Except.ok dev, cfg2, [cfg2])

/-- Replace the first device with the given key (the Python code mutates
the aliased dict returned by `get_device_by_key`). -/
def updateFirstDevice (f : Device → Device) (key : String) :
    List Device → List Device
  | [] => []
  | d :: rest =>
    if d.key = key then f d :: rest else d :: updateFirstDevice f key rest

/-- `DeviceConfig.add_field` (logger.py lines 66 to 76): silently does
nothing when the key is unknown; otherwise inserts the field spec into
the fields dict of the entry and saves. -/
def addField (cfg : Config) (key field_name source_field description : String)
    (enabled : Bool) : Config × List Config :=
  match getDeviceByKey cfg key with
  | none => (cfg, [])
  | some _ =>
    let spec : FieldSpec :=
      { source_field := source_field, enabled := enabled,
        description := description }
    let cfg2 : Config :=
      ⟨updateFirstDevice
        (fun d => { d with fields := dictInsert d.fields field_name spec })
        key cfg.devices⟩
    (cfg2, [cfg2])

/-- `BLELogger.decode_data` (logger.py lines 192 to 200): dispatch on
the decoder type of the entry; only govee_h5074 is known. -/
def decodeData (dev : Device) (md : MfrData) : Option PyRecord :=
  match pyLookup "type" dev.decoder with
  | some t => if t = "govee_h5074" then decodeGovee md else none
  | none => none

/-- The loop body of `map_data_to_config`: add the field when it is
enabled and its source field is present in the raw record. -/
def mapStep (raw : PyRecord) (acc : PyRecord) (p : String × FieldSpec) :
    PyRecord :=
  if p.2.enabled then
    match pyLookup p.2.source_field raw with
    | some v => dictInsert acc p.1 v
    | none => acc
  else acc

/-- `BLELogger.map_data_to_config` (logger.py lines 222 to 235): start
from the key and the formatted timestamp, then add every enabled field
whose source field the raw record contains. -/
def mapDataToConfig (dev : Device) (ts : String) (raw : PyRecord) : PyRecord :=
  dev.fields.foldl (mapStep raw)
    [("key", PyVal.pstr dev.key), ("timestamp", PyVal.pstr ts)]

/-- `should_log` of `BLELogger.monitor_devices` (logger.py lines 254 to
259): a single session-wide last-log time, 0 as the fresh-session
sentinel; accept when fresh or when the interval has elapsed, recording
the current time exactly on acceptance. Returns the decision and the
state afterwards. -/
def shouldLog (interval now last : Rat) : Bool × Rat :=
  if last = 0 ∨ interval ≤ now - last then (true, now) else (false, last)

/-- `should_log` of `GoveeSensor.monitor_continuous` (H5074_logger.py
lines 120 to 125): no sentinel, the state starts at the monitor start
time. -/
def shouldLogH (interval now last : Rat) : Bool × Rat :=
  if interval ≤ now - last then (true, now) else (false, last)

/-- The session-wide gate applied to a list of (device key, time) calls,
returning the accepted calls, as the monitoring callback drives it. -/
def runGate (interval : Rat) : Rat → List (String × Rat) → List (String × Rat)
  | _, [] => []
  | last, c :: rest =>
    let g := shouldLog interval c.2 last
    if g.1 then c :: runGate interval g.2 rest else runGate interval g.2 rest

/-- The active `detection_callback` of `BLELogger.monitor_devices`
(logger.py lines 261 to 280): registry lookup by MAC, then the rate
gate, then the manufacturer-data presence check, decode, map, log.
Returns the record handed to `log_data` (if any) and the gate state
afterwards. The advertised device name is received but never read. -/
def detectionCallback (cfg : Config) (interval st now : Rat) (ts : String)
    (addr : String) (name : String) (md : MfrData) : Option PyRecord × Rat :=
  match getDeviceByMac cfg addr with
  | none => (none, st)
  | some dev =>
    let g := shouldLog interval now st
    if g.1 = false then (none, g.2)
    else if md = [] then (none, g.2)
    else
      match decodeData dev md with
      | none => (none, g.2)
      | some raw =>
        let m := mapDataToConfig dev ts raw
        if m = [] then (none, g.2) else (some m, g.2)

/-- `detection_callback` of `GoveeSensor.monitor_continuous`
(H5074_logger.py lines 127 to 137): MAC match, then the short-circuit
conjunction of manufacturer-data presence and the rate gate, then
decode and log. -/
def h5074Callback (selfMac : String) (interval st now : Rat) (ts : String)
    (addr : String) (md : MfrData) : Option PyRecord × Rat :=
  if addr.toUpper = selfMac.toUpper then
    if md = [] then (none, st)
    else
      let g := shouldLogH interval now st
      if g.1 then (decodeSensorData md ts, g.2) else (none, g.2)
  else (none, st)

/-! ## Helper lemmas -/

lemma getD_lt_of_bytes (data : List Nat) (hb : ∀ b ∈ data, b < 256)
    (i : Nat) (hi : i < data.length) : data.getD i 0 < 256 := by
  rw [List.getD_eq_getElem data 0 hi]
  exact hb _ (List.getElem_mem hi)

lemma take_getD (l : List Nat) (n i : Nat) (hi : i < n) :
    (l.take n).getD i 0 = l.getD i 0 := by
  induction n generalizing l i with
  | zero => omega
  | succ n ih =>
    cases l with
    | nil => simp
    | cons a t =>
      cases i with
      | zero => simp
      | succ j => simpa using ih t j (by omega)

lemma getD_eq_of_take_eq (l l2 : List Nat) (h : l.take 6 = l2.take 6)
    (i : Nat) (hi : i < 6) : l.getD i 0 = l2.getD i 0 := by
  rw [← take_getD l 6 i hi, ← take_getD l2 6 i hi, h]

/-! ## Claim C1 -/

/-- C1: for every manufacturer-data mapping with an entry for company id
60552 of length at least 6, the decoder is a pure function yielding
temperature = LE16 of bytes 1..3 divided by 100, humidity = LE16 of
bytes 3..5 divided by 100, battery = the byte at offset 5 (the two words
being genuine 16-bit values and the battery a byte); the H5074 variant
yields the same three values for every clock reading, and bytes beyond
index 5 do not affect the three values. -/
theorem decodeGovee_h5074_fields (md : MfrData) (data : List Nat)
    (hlook : pyLookup 60552 md = some data) (hlen : 6 ≤ data.length)
    (hbytes : ∀ b ∈ data, b < 256) :
    decodeGovee md =
      some [("temperature", PyVal.pfloat ((leSlice data 1 : Rat) / 100)),
            ("humidity", PyVal.pfloat ((leSlice data 3 : Rat) / 100)),
            ("battery", PyVal.pint (data.getD 5 0)),
            ("raw_hex", PyVal.pstr (bytesHex data))]
    ∧ leSlice data 1 < 65536 ∧ leSlice data 3 < 65536 ∧ data.getD 5 0 < 256
    ∧ (∀ ts : String, decodeSensorData md ts =
        some [("temperature", PyVal.pfloat ((leSlice data 1 : Rat) / 100)),
              ("humidity", PyVal.pfloat ((leSlice data 3 : Rat) / 100)),
              ("battery", PyVal.pint (data.getD 5 0)),
              ("timestamp", PyVal.pstr ts),
              ("raw_hex", PyVal.pstr (bytesHex data))])
    ∧ (∀ data2 : List Nat, data.take 6 = data2.take 6 →
        leSlice data2 1 = leSlice data 1 ∧ leSlice data2 3 = leSlice data 3 ∧
        data2.getD 5 0 = data.getD 5 0) := by
  have hnot : ¬ data.length < 6 := by omega
  have h1 : data.getD 1 0 < 256 := getD_lt_of_bytes data hbytes 1 (by omega)
  have h2 : data.getD 2 0 < 256 := getD_lt_of_bytes data hbytes 2 (by omega)
  have h3 : data.getD 3 0 < 256 := getD_lt_of_bytes data hbytes 3 (by omega)
  have h4 : data.getD 4 0 < 256 := getD_lt_of_bytes data hbytes 4 (by omega)
  have h5 : data.getD 5 0 < 256 := getD_lt_of_bytes data hbytes 5 (by omega)
  have r1 : leSlice data 1 = data.getD 1 0 + 256 * data.getD 2 0 := rfl
  have r3 : leSlice data 3 = data.getD 3 0 + 256 * data.getD 4 0 := rfl
  refine ⟨?_, ?_, ?_, h5, ?_, ?_⟩
  · simp [decodeGovee, hlook, hnot]
  · rw [r1]; omega
  · rw [r3]; omega
  · intro ts
    simp [decodeSensorData, hlook, hnot]
  · intro data2 htake
    have e1 := getD_eq_of_take_eq data data2 htake 1 (by omega)
    have e2 := getD_eq_of_take_eq data data2 htake 2 (by omega)
    have e3 := getD_eq_of_take_eq data data2 htake 3 (by omega)
    have e4 := getD_eq_of_take_eq data data2 htake 4 (by omega)
    have e5 := getD_eq_of_take_eq data data2 htake 5 (by omega)
    have s1 : leSlice data2 1 = data2.getD 1 0 + 256 * data2.getD 2 0 := rfl
    have s3 : leSlice data2 3 = data2.getD 3 0 + 256 * data2.getD 4 0 := rfl
    refine ⟨?_, ?_, e5.symm⟩
    · rw [r1, s1, e1, e2]
    · rw [r3, s3, e3, e4]

/-- Witness for C1 at the concrete payload 00 46 0c 88 0e 45: the
readings are 31.42 degrees, 37.20 percent and battery 69. -/
theorem decodeGovee_h5074_fields_witness :
    pyLookup 60552 [(60552, [0, 70, 12, 136, 14, 69])] = some [0, 70, 12, 136, 14, 69]
    ∧ 6 ≤ ([0, 70, 12, 136, 14, 69] : List Nat).length
    ∧ (∀ b ∈ ([0, 70, 12, 136, 14, 69] : List Nat), b < 256)
    ∧ decodeGovee [(60552, [0, 70, 12, 136, 14, 69])] =
        some [("temperature", PyVal.pfloat (3142 / 100)),
              ("humidity", PyVal.pfloat (3720 / 100)),
              ("battery", PyVal.pint 69),
              ("raw_hex", PyVal.pstr "00460c880e45")] := by
  refine ⟨by decide, by decide, by decide, ?_⟩
  rw [(decodeGovee_h5074_fields [(60552, [0, 70, 12, 136, 14, 69])]
        [0, 70, 12, 136, 14, 69] (by decide) (by decide) (by decide)).1]
  norm_num [leSlice, bytesHex, byteHex, hexDigit]
  decide

/-- A sample entry with an empty decoder dict, for concrete witnesses. -/
def devK1 : Device :=
  { key := "k1", description := "", mac_address := "AA:BB:CC:DD:EE:FF",
    device_type := "H5074", scan_filter := [], decoder := [], fields := [] }

/-! ## Claim C4 -/

/-- C4: the decoder returns no data (None, never an exception) when the
manufacturer-data mapping lacks company id 60552, when the 60552 entry
is shorter than 6 bytes, and when the configured decoder type is not the
one known type. -/
theorem decode_noData (md : MfrData) (data : List Nat) (dev : Device) (md2 : MfrData) :
    (pyLookup 60552 md = none → decodeGovee md = none)
    ∧ (pyLookup 60552 md = some data → data.length < 6 → decodeGovee md = none)
    ∧ (pyLookup "type" dev.decoder ≠ some "govee_h5074" → decodeData dev md2 = none) := by
  refine ⟨?_, ?_, ?_⟩
  · intro h; simp [decodeGovee, h]
  · intro h hlen; simp [decodeGovee, h, hlen]
  · intro h
    unfold decodeData
    cases hl : pyLookup "type" dev.decoder with
    | none => rfl
    | some t =>
      have : t ≠ "govee_h5074" := by
        intro he; exact h (by rw [hl, he])
      simp [this]

/-- Witness for C4: an empty mapping, a two-byte 60552 entry, and a
device whose decoder dict is empty, all decode to none. -/
theorem decode_noData_witness :
    decodeGovee [] = none
    ∧ decodeGovee [(60552, [1, 2])] = none
    ∧ decodeData devK1 [(60552, [0, 70, 12, 136, 14, 69])] = none := by
  refine ⟨(decode_noData [] [] devK1 []).1 (by decide),
          (decode_noData [(60552, [1, 2])] [1, 2] devK1 []).2.1 (by decide) (by decide),
          (decode_noData [] [] devK1
            [(60552, [0, 70, 12, 136, 14, 69])]).2.2 (by decide)⟩

/-! ## Claim C7 -/

/-- C7: adding a device whose key is already present raises the
duplicate-key ValueError, leaves the registry unchanged and persists
nothing. -/
theorem addDevice_duplicate_rejected (cfg : Config) (k desc mac t : String)
    (sf : List (String × String)) (d : Device)
    (h : getDeviceByKey cfg k = some d) :
    addDevice cfg k desc mac t sf =
      (Except.error ("Device with key " ++ k ++ " already exists"), cfg, []) := by
  unfold addDevice
  rw [h]

/-- Witness for C7 on a one-device registry. -/
theorem addDevice_duplicate_rejected_witness :
    getDeviceByKey ⟨[devK1]⟩ "k1" = some devK1
    ∧ addDevice ⟨[devK1]⟩ "k1" "other" "11:22:33:44:55:66" "H5075" [] =
      (Except.error ("Device with key " ++ "k1" ++ " already exists"),
       (⟨[devK1]⟩ : Config), []) := by
  constructor
  · decide
  · exact addDevice_duplicate_rejected ⟨[devK1]⟩ "k1" "other" "11:22:33:44:55:66"
      "H5075" [] devK1 (by decide)

/-! ## Claim C10 -/

/-- C10: a device entry freshly created by add_device has an empty
decoder dict; any entry whose decoder dict has no type entry decodes
every advertisement to None; hence the fresh entry never yields a
decoded record. -/
theorem addDevice_entry_never_decodes (cfg : Config) (k d m t : String)
    (sf : List (String × String)) (dev : Device) (cfg2 : Config)
    (saves : List Config)
    (h : addDevice cfg k d m t sf = (Except.ok dev, cfg2, saves)) :
    dev.decoder = []
    ∧ (∀ dev2 : Device, ∀ md : MfrData,
        pyLookup "type" dev2.decoder = none → decodeData dev2 md = none)
    ∧ (∀ md : MfrData, decodeData dev md = none) := by
  have hdec : dev.decoder = [] := by
    unfold addDevice at h
    cases hk : getDeviceByKey cfg k with
    | some d0 => rw [hk] at h; simp at h
    | none =>
      rw [hk] at h
      simp only [Prod.mk.injEq, Except.ok.injEq] at h
      rw [← h.1]
  have hnone : ∀ dev2 : Device, ∀ md : MfrData,
      pyLookup "type" dev2.decoder = none → decodeData dev2 md = none := by
    intro dev2 md hl
    unfold decodeData
    rw [hl]
  refine ⟨hdec, hnone, ?_⟩
  intro md
  exact hnone dev md (by rw [hdec]; rfl)

/-- Witness for C10: a device added to the empty registry. -/
theorem addDevice_entry_never_decodes_witness :
    addDevice ⟨[]⟩ "k1" "fridge" "AA:BB:CC:DD:EE:FF" "H5074" [] =
      (Except.ok
        { key := "k1", description := "fridge",
          mac_address := "AA:BB:CC:DD:EE:FF", device_type := "H5074",
          scan_filter := [], decoder := [], fields := [] },
       ⟨[{ key := "k1", description := "fridge",
           mac_address := "AA:BB:CC:DD:EE:FF", device_type := "H5074",
           scan_filter := [], decoder := [], fields := [] }]⟩,
       [⟨[{ key := "k1", description := "fridge",
            mac_address := "AA:BB:CC:DD:EE:FF", device_type := "H5074",
            scan_filter := [], decoder := [], fields := [] }]⟩])
    ∧ decodeData
        { key := "k1", description := "fridge",
          mac_address := "AA:BB:CC:DD:EE:FF", device_type := "H5074",
          scan_filter := [], decoder := [], fields := [] }
        [(60552, [0, 70, 12, 136, 14, 69])] = none := by
  refine ⟨rfl, ?_⟩
  exact (addDevice_entry_never_decodes ⟨[]⟩ "k1" "fridge" "AA:BB:CC:DD:EE:FF"
    "H5074" [] _ _ _ rfl).2.2 [(60552, [0, 70, 12, 136, 14, 69])]

/-! ## Claim C2 -/

/-- Entry A with a configured decoder, used in the monitoring traces. -/
def devA : Device :=
  { key := "A", description := "", mac_address := "11:11:11:11:11:11",
    device_type := "H5074", scan_filter := [],
    decoder := [("type", "govee_h5074")], fields := [] }

/-- Entry B with a configured decoder, used in the monitoring traces. -/
def devB : Device :=
  { key := "B", description := "", mac_address := "22:22:22:22:22:22",
    device_type := "H5074", scan_filter := [],
    decoder := [("type", "govee_h5074")], fields := [] }

/-- A two-entry registry. -/
def cfgAB : Config := ⟨[devA, devB]⟩

/-- A valid H5074 advertisement payload. -/
def mdV : MfrData := [(60552, [0, 70, 12, 136, 14, 69])]

/-- C2 counterexample: with the registry-driven monitor, after device A
is accepted at time 100 (interval 60), the very first call for the
fresh device key B at time 110 returns false: the gate state is a
single session-wide timestamp, not per device key. -/
theorem rateGate_not_per_key_counterexample :
    detectionCallback cfgAB 60 0 100 "T1" "11:11:11:11:11:11" "Govee_A" mdV =
      (some [("key", PyVal.pstr "A"), ("timestamp", PyVal.pstr "T1")], 100)
    ∧ detectionCallback cfgAB 60 100 110 "T2" "22:22:22:22:22:22" "Govee_B" mdV =
      (none, 100) := by
  constructor
  · norm_num [detectionCallback, getDeviceByMac, cfgAB, devA, devB, mdV,
      shouldLog, decodeData, decodeGovee, mapDataToConfig, mapStep, pyLookup,
      dictInsert, leSlice, bytesHex, byteHex, hexDigit]
    simp
  · norm_num [detectionCallback, getDeviceByMac, cfgAB, devA, devB, mdV,
      shouldLog, decodeData, decodeGovee, mapDataToConfig, mapStep, pyLookup,
      dictInsert, leSlice, bytesHex, byteHex, hexDigit]
    split <;> rfl

lemma shouldLog_accept (interval now last : Rat)
    (h : last = 0 ∨ interval ≤ now - last) :
    shouldLog interval now last = (true, now) := by
  unfold shouldLog
  rw [if_pos h]

lemma shouldLog_reject (interval now last : Rat) (h1 : last ≠ 0)
    (h2 : ¬ interval ≤ now - last) :
    shouldLog interval now last = (false, last) := by
  unfold shouldLog
  rw [if_neg (not_or.mpr ⟨h1, h2⟩)]

/-- Every call the gate accepts from a nonzero state lies at least one
interval after that state. -/
lemma runGate_lb (interval : Rat) (hI : 0 ≤ interval) :
    ∀ (calls : List (String × Rat)) (last : Rat), last ≠ 0 →
      (∀ c ∈ calls, 0 < c.2) →
      ∀ p ∈ runGate interval last calls, last + interval ≤ p.2 := by
  intro calls
  induction calls with
  | nil => intro last _ _ p hp; simp [runGate] at hp
  | cons c rest ih =>
    intro last hlast hpos p hp
    have hc2 : 0 < c.2 := hpos c (List.mem_cons_self c rest)
    by_cases hle : interval ≤ c.2 - last
    · rw [show runGate interval last (c :: rest) =
          c :: runGate interval c.2 rest by
            simp [runGate, shouldLog_accept interval c.2 last (Or.inr hle)]] at hp
      rcases List.mem_cons.1 hp with rfl | hmem
      · linarith
      · have hrec := ih c.2 (ne_of_gt hc2)
          (fun d hd => hpos d (List.mem_cons_of_mem c hd)) p hmem
        linarith
    · rw [show runGate interval last (c :: rest) =
          runGate interval last rest by
            simp [runGate, shouldLog_reject interval c.2 last hlast hle]] at hp
      exact ih last hlast (fun d hd => hpos d (List.mem_cons_of_mem c hd)) p hp

/-- From a nonzero state, the accepted calls are pairwise at least one
interval apart. -/
lemma runGate_pairwise_aux (interval : Rat) (hI : 0 ≤ interval) :
    ∀ (calls : List (String × Rat)) (last : Rat), last ≠ 0 →
      (∀ c ∈ calls, 0 < c.2) →
      List.Pairwise (fun a b : String × Rat => a.2 + interval ≤ b.2)
        (runGate interval last calls) := by
  intro calls
  induction calls with
  | nil => intro last _ _; simp [runGate]
  | cons c rest ih =>
    intro last hlast hpos
    have hc2 : 0 < c.2 := hpos c (List.mem_cons_self c rest)
    have hrest : ∀ d ∈ rest, 0 < d.2 :=
      fun d hd => hpos d (List.mem_cons_of_mem c hd)
    by_cases hle : interval ≤ c.2 - last
    · rw [show runGate interval last (c :: rest) =
          c :: runGate interval c.2 rest by
            simp [runGate, shouldLog_accept interval c.2 last (Or.inr hle)]]
      exact List.Pairwise.cons
        (fun p hp => runGate_lb interval hI rest c.2 (ne_of_gt hc2) hrest p hp)
        (ih c.2 (ne_of_gt hc2) hrest)
    · rw [show runGate interval last (c :: rest) =
          runGate interval last rest by
            simp [runGate, shouldLog_reject interval c.2 last hlast hle]]
      exact ih last hlast hrest

/-- C2 as amended: the registry-driven gate state is one session-wide
timestamp (sentinel 0); the first call of the session is always
accepted and records now; from a nonzero state a call is accepted
exactly when the interval has elapsed, recording now exactly on
acceptance; consequently the accepted timestamps of the whole session,
all device keys together, are pairwise at least one interval apart. -/
theorem rateGate_session_properties (interval : Rat) (hI : 0 ≤ interval)
    (now last : Rat) (hlast : last ≠ 0) (calls : List (String × Rat))
    (hpos : ∀ c ∈ calls, 0 < c.2) :
    shouldLog interval now 0 = (true, now)
    ∧ (shouldLog interval now last =
        if interval ≤ now - last then (true, now) else (false, last))
    ∧ ((shouldLog interval now last).1 = true →
        (shouldLog interval now last).2 = now)
    ∧ List.Pairwise (fun a b : String × Rat => a.2 + interval ≤ b.2)
        (runGate interval 0 calls) := by
  refine ⟨shouldLog_accept interval now 0 (Or.inl rfl), ?_, ?_, ?_⟩
  · by_cases hle : interval ≤ now - last
    · rw [if_pos hle]; exact shouldLog_accept interval now last (Or.inr hle)
    · rw [if_neg hle]; exact shouldLog_reject interval now last hlast hle
  · intro htrue
    by_cases hle : interval ≤ now - last
    · rw [shouldLog_accept interval now last (Or.inr hle)]
    · rw [shouldLog_reject interval now last hlast hle] at htrue
      exact absurd htrue (by simp)
  · cases calls with
    | nil => simp [runGate]
    | cons c rest =>
      have hc2 : 0 < c.2 := hpos c (List.mem_cons_self c rest)
      have hrest : ∀ d ∈ rest, 0 < d.2 :=
        fun d hd => hpos d (List.mem_cons_of_mem c hd)
      rw [show runGate interval 0 (c :: rest) =
          c :: runGate interval c.2 rest by
            simp [runGate, shouldLog_accept interval c.2 0 (Or.inl rfl)]]
      exact List.Pairwise.cons
        (fun p hp => runGate_lb interval hI rest c.2 (ne_of_gt hc2) hrest p hp)
        (runGate_pairwise_aux interval hI rest c.2 (ne_of_gt hc2) hrest)

/-- Witness for the amended C2 at interval 60 with two calls. -/
theorem rateGate_session_properties_witness :
    (0 : Rat) ≤ 60 ∧ (5 : Rat) ≠ 0
    ∧ (∀ c ∈ [("A", (100 : Rat)), ("B", 161)], 0 < c.2)
    ∧ (shouldLog 60 70 0 = (true, 70)
       ∧ (shouldLog 60 70 5 =
           if (60 : Rat) ≤ 70 - 5 then (true, 70) else (false, 5))
       ∧ ((shouldLog 60 70 5).1 = true → (shouldLog 60 70 5).2 = 70)
       ∧ List.Pairwise (fun a b : String × Rat => a.2 + 60 ≤ b.2)
           (runGate 60 0 [("A", 100), ("B", 161)])) := by
  refine ⟨by norm_num, by norm_num, ?_, ?_⟩
  · intro c hc
    simp only [List.mem_cons, List.not_mem_nil, or_false] at hc
    rcases hc with rfl | rfl <;> norm_num
  · exact rateGate_session_properties 60 (by norm_num) 70 5 (by norm_num)
      [("A", 100), ("B", 161)] (by
        intro c hc
        simp only [List.mem_cons, List.not_mem_nil, or_false] at hc
        rcases hc with rfl | rfl <;> norm_num)

/-! ## Claim C3 -/

/-- The field contributions of a mapping pass: one output entry per
enabled field whose source field the raw record contains. -/
def contribs (raw : PyRecord) (fields : List (String × FieldSpec)) : PyRecord :=
  fields.filterMap
    (fun p =>
      if p.2.enabled then
        (pyLookup p.2.source_field raw).map (fun v => (p.1, v))
      else none)

/-- A sample raw record for the mapper counterexample. -/
def rawT : PyRecord := [("temperature", PyVal.pfloat (3142 / 100))]

/-- An entry with a configured field literally named key. -/
def devShadow : Device :=
  { key := "k1", description := "", mac_address := "AA:BB:CC:DD:EE:FF",
    device_type := "H5074", scan_filter := [], decoder := [],
    fields := [("key", { source_field := "temperature", enabled := true,
                         description := "" })] }

/-- C3 counterexample: a configured field named key (enabled, source
present) overwrites the entry key in the output, so the record does not
start with the entry's key. -/
theorem mapData_key_shadow_counterexample :
    mapDataToConfig devShadow "2026-01-01 00:00:00" rawT =
      [("key", PyVal.pfloat (3142 / 100)),
       ("timestamp", PyVal.pstr "2026-01-01 00:00:00")]
    ∧ (mapDataToConfig devShadow "2026-01-01 00:00:00" rawT).head? ≠
        some ("key", PyVal.pstr devShadow.key) := by
  constructor
  · norm_num [mapDataToConfig, mapStep, devShadow, rawT, pyLookup, dictInsert]
  · norm_num [mapDataToConfig, mapStep, devShadow, rawT, pyLookup, dictInsert]
    intro h
    exact PyVal.noConfusion h

lemma dictInsert_of_not_mem {α : Type} (d : List (String × α)) (k : String)
    (v : α) (h : k ∉ d.map Prod.fst) : dictInsert d k v = d ++ [(k, v)] := by
  induction d with
  | nil => rfl
  | cons p rest ih =>
    simp only [List.map_cons, List.mem_cons] at h
    push_neg at h
    have hne : ¬ p.1 = k := fun he => h.1 he.symm
    simp only [dictInsert, if_neg hne]
    rw [ih h.2, List.cons_append]

lemma mapFold_append (raw : PyRecord) :
    ∀ (fields : List (String × FieldSpec)) (acc : PyRecord),
      (fields.map Prod.fst).Nodup →
      (∀ p ∈ fields, p.1 ∉ acc.map Prod.fst) →
      fields.foldl (mapStep raw) acc = acc ++ contribs raw fields := by
  intro fields
  induction fields with
  | nil => intro acc _ _; simp [contribs]
  | cons p rest ih =>
    intro acc hnd hfresh
    have hndr : (rest.map Prod.fst).Nodup := by
      simp only [List.map_cons, List.nodup_cons] at hnd
      exact hnd.2
    have hpr : p.1 ∉ rest.map Prod.fst := by
      simp only [List.map_cons, List.nodup_cons] at hnd
      exact hnd.1
    have hpacc : p.1 ∉ acc.map Prod.fst :=
      hfresh p (List.mem_cons_self p rest)
    rw [List.foldl_cons]
    by_cases hen : p.2.enabled
    · cases hlook : pyLookup p.2.source_field raw with
      | none =>
        rw [show mapStep raw acc p = acc by simp [mapStep, hen, hlook]]
        rw [ih acc hndr (fun q hq => hfresh q (List.mem_cons_of_mem p hq))]
        simp [contribs, hen, hlook]
      | some v =>
        rw [show mapStep raw acc p = acc ++ [(p.1, v)] by
          simp only [mapStep, hen, if_true, hlook]
          exact dictInsert_of_not_mem acc p.1 v hpacc]
        rw [ih (acc ++ [(p.1, v)]) hndr ?_]
        · simp [contribs, hen, hlook]
        · intro q hq
          simp only [List.map_append, List.mem_append]
          push_neg
          refine ⟨fun hmem => hfresh q (List.mem_cons_of_mem p hq) hmem, ?_⟩
          simp only [List.map_cons, List.map_nil, List.mem_singleton]
          intro he
          exact hpr (he ▸ List.mem_map_of_mem Prod.fst hq)
    · rw [show mapStep raw acc p = acc by simp [mapStep, hen]]
      rw [ih acc hndr (fun q hq => hfresh q (List.mem_cons_of_mem p hq))]
      simp [contribs, hen]

/-- C3 as amended: provided no configured field is literally named key
or timestamp (field names are unique, as in a Python dict), the mapper
output is exactly the entry key, the formatted timestamp, and one entry
per enabled field whose source field is present, in configuration
order; disabled fields and fields with an absent source field
contribute no key at all. (Without the proviso a configured field named
key or timestamp overwrites the two header entries.) -/
theorem mapData_spec (dev : Device) (ts : String) (raw : PyRecord)
    (hnd : (dev.fields.map Prod.fst).Nodup)
    (hres : ∀ p ∈ dev.fields, p.1 ≠ "key" ∧ p.1 ≠ "timestamp") :
    mapDataToConfig dev ts raw =
      ("key", PyVal.pstr dev.key) :: ("timestamp", PyVal.pstr ts) ::
        contribs raw dev.fields
    ∧ ∀ p ∈ dev.fields,
        (p.2.enabled = false ∨ pyLookup p.2.source_field raw = none) →
        p.1 ∉ (mapDataToConfig dev ts raw).map Prod.fst := by
  have hfresh : ∀ p ∈ dev.fields,
      p.1 ∉ (([("key", PyVal.pstr dev.key),
               ("timestamp", PyVal.pstr ts)] : PyRecord).map Prod.fst) := by
    intro p hp
    have h := hres p hp
    simp [h.1, h.2]
  have heq : mapDataToConfig dev ts raw =
      ("key", PyVal.pstr dev.key) :: ("timestamp", PyVal.pstr ts) ::
        contribs raw dev.fields := by
    unfold mapDataToConfig
    rw [mapFold_append raw dev.fields _ hnd hfresh]
    rfl
  refine ⟨heq, ?_⟩
  intro p hp hskip
  rw [heq]
  simp only [List.map_cons, List.mem_cons]
  push_neg
  refine ⟨(hres p hp).1, (hres p hp).2, ?_⟩
  intro hmem
  obtain ⟨q, hq, hq1⟩ := List.mem_map.1 hmem
  obtain ⟨r, hr, hrq⟩ := List.mem_filterMap.1 hq
  by_cases hen : r.2.enabled
  · rw [if_pos hen] at hrq
    obtain ⟨v, hv, hvq⟩ := Option.map_eq_some'.mp hrq
    have hr1 : r.1 = p.1 := by rw [← hq1, ← hvq]
    have hrp : r = p := List.inj_on_of_nodup_map hnd hr hp hr1
    rcases hskip with hdis | hnone
    · rw [hrp, hdis] at hen
      exact absurd hen (by simp)
    · rw [hrp, hnone] at hv
      exact Option.noConfusion hv
  · rw [if_neg hen] at hrq
    exact Option.noConfusion hrq

/-- An entry with one enabled and one disabled field, for the mapper
witness. -/
def devW3 : Device :=
  { key := "gv1", description := "", mac_address := "AA:BB:CC:DD:EE:FF",
    device_type := "H5074", scan_filter := [], decoder := [],
    fields := [("temp_c", { source_field := "temperature", enabled := true,
                            description := "" }),
               ("hum", { source_field := "humidity", enabled := false,
                         description := "" })] }

/-- Witness for the amended C3: the enabled field is mapped, the
disabled one contributes nothing. -/
theorem mapData_spec_witness :
    (devW3.fields.map Prod.fst).Nodup
    ∧ (∀ p ∈ devW3.fields, p.1 ≠ "key" ∧ p.1 ≠ "timestamp")
    ∧ (mapDataToConfig devW3 "T" rawT =
        ("key", PyVal.pstr devW3.key) :: ("timestamp", PyVal.pstr "T") ::
          contribs rawT devW3.fields
       ∧ ∀ p ∈ devW3.fields,
          (p.2.enabled = false ∨ pyLookup p.2.source_field rawT = none) →
          p.1 ∉ (mapDataToConfig devW3 "T" rawT).map Prod.fst) := by
  refine ⟨by decide, by decide, ?_⟩
  exact mapData_spec devW3 "T" rawT (by decide) (by decide)

/-! ## Claim C5 -/

/-- An entry declaring a name-pattern scan filter. -/
def devF : Device :=
  { key := "gv2", description := "", mac_address := "AA:BB:CC:DD:EE:FF",
    device_type := "H5074", scan_filter := [("name_pattern", "Govee_.*")],
    decoder := [("type", "govee_h5074")], fields := [] }

/-- A registry holding only that entry. -/
def cfgF : Config := ⟨[devF]⟩

/-- C5 evaluated: the active monitoring callback of logger.py never
reads the advertised name, so for a registered device declaring a
name-pattern filter a record is decoded and logged whatever the
advertised name is (in particular for names the pattern rejects). -/
theorem monitor_ignores_name_filter (name name2 : String) (cfg : Config)
    (interval st now : Rat) (ts addr : String) (md : MfrData) :
    detectionCallback cfg interval st now ts addr name md =
      detectionCallback cfg interval st now ts addr name2 md
    ∧ detectionCallback cfgF 60 0 100 "T" "AA:BB:CC:DD:EE:FF" name mdV =
      (some [("key", PyVal.pstr "gv2"), ("timestamp", PyVal.pstr "T")], 100) := by
  constructor
  · rfl
  · norm_num [detectionCallback, getDeviceByMac, cfgF, devF, mdV,
      shouldLog, decodeData, decodeGovee, mapDataToConfig, mapStep, pyLookup,
      dictInsert, leSlice, bytesHex, byteHex, hexDigit]
    simp

/-! ## Claim C6 -/

/-- C6 counterexample: in registry-driven monitoring an advertisement
with no manufacturer data from a registered device consumes the rate
gate (state 0 becomes 100), so a valid data advertisement 30 seconds
later (interval 60) is suppressed. -/
theorem emptyAdvertisement_consumes_gate_counterexample :
    detectionCallback cfgF 60 0 100 "T1" "AA:BB:CC:DD:EE:FF" "n" [] =
      (none, 100)
    ∧ (100 : Rat) ≠ 0
    ∧ detectionCallback cfgF 60 100 130 "T2" "AA:BB:CC:DD:EE:FF" "n" mdV =
      (none, 100) := by
  refine ⟨?_, by norm_num, ?_⟩
  · norm_num [detectionCallback, getDeviceByMac, cfgF, devF, shouldLog]
  · norm_num [detectionCallback, getDeviceByMac, cfgF, devF, mdV, shouldLog]

/-- C6 as amended: in single-device monitoring (H5074_logger.py) an
advertisement without manufacturer data is ignored before the rate gate
is consulted, leaving the gate state unchanged and logging nothing; in
registry-driven monitoring (logger.py) the gate is consulted first, so
such an advertisement from a registered device records the current time
whenever the gate accepts. -/
theorem emptyAdvertisement_gate_interaction
    (selfMac : String) (interval st now : Rat) (ts addr : String)
    (cfg : Config) (dev : Device) (st2 now2 : Rat) (ts2 addr2 name2 : String)
    (hdev : getDeviceByMac cfg addr2 = some dev)
    (hacc : (shouldLog interval now2 st2).1 = true) :
    h5074Callback selfMac interval st now ts addr [] = (none, st)
    ∧ detectionCallback cfg interval st2 now2 ts2 addr2 name2 [] =
        (none, now2) := by
  constructor
  · unfold h5074Callback
    by_cases h : addr.toUpper = selfMac.toUpper
    · rw [if_pos h]
      rfl
    · rw [if_neg h]
  · have hg : shouldLog interval now2 st2 = (true, now2) := by
      unfold shouldLog at hacc ⊢
      by_cases hc : st2 = 0 ∨ interval ≤ now2 - st2
      · rw [if_pos hc]
      · rw [if_neg hc] at hacc
        exact absurd hacc (by simp)
    unfold detectionCallback
    rw [hdev]
    simp [hg]

/-- Witness for the amended C6. -/
theorem emptyAdvertisement_gate_interaction_witness :
    getDeviceByMac cfgF "AA:BB:CC:DD:EE:FF" = some devF
    ∧ (shouldLog 60 100 0).1 = true
    ∧ (h5074Callback "AA:BB:CC:DD:EE:FF" 60 5 100 "T" "AA:BB:CC:DD:EE:FF" [] =
        (none, 5)
       ∧ detectionCallback cfgF 60 0 100 "T" "AA:BB:CC:DD:EE:FF" "n" [] =
        (none, 100)) := by
  refine ⟨by norm_num [getDeviceByMac, cfgF, devF], by norm_num [shouldLog], ?_⟩
  exact emptyAdvertisement_gate_interaction "AA:BB:CC:DD:EE:FF" 60 5 100 "T"
    "AA:BB:CC:DD:EE:FF" cfgF devF 0 100 "T" "AA:BB:CC:DD:EE:FF" "n"
    (by norm_num [getDeviceByMac, cfgF, devF]) (by norm_num [shouldLog])

/-! ## Persisted form (claims C8 and C9)

`json.dump` and `json.load` are standard-library collaborators; the
persisted store is modelled at the JSON-value level: a missing file, a
file whose parse raises, or a parsed document. -/

/-- A JSON value as `json.load` returns it. -/
inductive Json where
  | null
  | bool (b : Bool)
  | num (q : Rat)
  | str (s : String)
  | arr (xs : List Json)
  | obj (kvs : List (String × Json))

/-- The serialized form of a field spec. -/
def fieldToJson (fs : FieldSpec) : Json :=
  Json.obj [("source_field", Json.str fs.source_field),
            ("enabled", Json.bool fs.enabled),
            ("description", Json.str fs.description)]

/-- The serialized form of a string-valued sub-dictionary. -/
def strDictToJson (d : List (String × String)) : Json :=
  Json.obj (d.map (fun p => (p.1, Json.str p.2)))

/-- The serialized form of one device entry. -/
def deviceToJson (d : Device) : Json :=
  Json.obj [("key", Json.str d.key),
            ("description", Json.str d.description),
            ("mac_address", Json.str d.mac_address),
            ("device_type", Json.str d.device_type),
            ("scan_filter", strDictToJson d.scan_filter),
            ("decoder", strDictToJson d.decoder),
            ("fields", Json.obj (d.fields.map (fun p => (p.1, fieldToJson p.2))))]

/-- The serialized registry document, as `save_config` dumps it. -/
def configToJson (c : Config) : Json :=
  Json.obj [("devices", Json.arr (c.devices.map deviceToJson))]

/-- Read back a string-valued sub-dictionary. -/
def decodeStrPairs : List (String × Json) → Option (List (String × String))
  | [] => some []
  | (k, Json.str s) :: rest => (decodeStrPairs rest).map (fun r => (k, s) :: r)
  | _ => none

/-- Read back a sub-dictionary from its JSON value. -/
def jsonToStrDict : Json → Option (List (String × String))
  | Json.obj kvs => decodeStrPairs kvs
  | _ => none

/-- Read back one field spec. -/
def jsonToField : Json → Option FieldSpec
  | Json.obj kvs =>
    match pyLookup "source_field" kvs, pyLookup "enabled" kvs,
          pyLookup "description" kvs with
    | some (Json.str s), some (Json.bool b), some (Json.str ds) =>
      some { source_field := s, enabled := b, description := ds }
    | _, _, _ => none
  | _ => none

/-- Read back the fields dictionary. -/
def decodeFieldPairs : List (String × Json) → Option (List (String × FieldSpec))
  | [] => some []
  | (k, j) :: rest =>
    match jsonToField j with
    | some fs => (decodeFieldPairs rest).map (fun r => (k, fs) :: r)
    | none => none

/-- Read back one device entry. -/
def jsonToDevice : Json → Option Device
  | Json.obj kvs =>
    match pyLookup "key" kvs, pyLookup "description" kvs,
          pyLookup "mac_address" kvs, pyLookup "device_type" kvs,
          pyLookup "scan_filter" kvs, pyLookup "decoder" kvs,
          pyLookup "fields" kvs with
    | some (Json.str k), some (Json.str ds), some (Json.str m),
      some (Json.str t), some sf, some dc, some (Json.obj fl) =>
      match jsonToStrDict sf, jsonToStrDict dc, decodeFieldPairs fl with
      | some sf2, some dc2, some fl2 =>
        some { key := k, description := ds, mac_address := m,
               device_type := t, scan_filter := sf2, decoder := dc2,
               fields := fl2 }
      | _, _, _ => none
    | _, _, _, _, _, _, _ => none
  | _ => none

/-- Read back the device list. -/
def decodeDevices : List Json → Option (List Device)
  | [] => some []
  | j :: rest =>
    match jsonToDevice j with
    | some d => (decodeDevices rest).map (fun r => d :: r)
    | none => none

/-- Read back the registry from its persisted document. -/
def jsonToConfig : Json → Option Config
  | Json.obj kvs =>
    match pyLookup "devices" kvs with
    | some (Json.arr xs) => (decodeDevices xs).map (fun ds => ⟨ds⟩)
    | _ => none
  | _ => none

lemma decodeStrPairs_round (d : List (String × String)) :
    decodeStrPairs (d.map (fun p => (p.1, Json.str p.2))) = some d := by
  induction d with
  | nil => rfl
  | cons p rest ih => simp [decodeStrPairs, ih]

lemma jsonToField_round (fs : FieldSpec) :
    jsonToField (fieldToJson fs) = some fs := rfl

lemma decodeFieldPairs_round (fl : List (String × FieldSpec)) :
    decodeFieldPairs (fl.map (fun p => (p.1, fieldToJson p.2))) = some fl := by
  induction fl with
  | nil => rfl
  | cons p rest ih => simp [decodeFieldPairs, jsonToField_round, ih]

lemma jsonToDevice_round (d : Device) :
    jsonToDevice (deviceToJson d) = some d := by
  show (match jsonToStrDict (strDictToJson d.scan_filter),
             jsonToStrDict (strDictToJson d.decoder),
             decodeFieldPairs (d.fields.map (fun p => (p.1, fieldToJson p.2))) with
        | some sf2, some dc2, some fl2 =>
          some { key := d.key, description := d.description,
                 mac_address := d.mac_address, device_type := d.device_type,
                 scan_filter := sf2, decoder := dc2, fields := fl2 }
        | _, _, _ => none) = some d
  rw [show jsonToStrDict (strDictToJson d.scan_filter) = some d.scan_filter
      from decodeStrPairs_round d.scan_filter,
    show jsonToStrDict (strDictToJson d.decoder) = some d.decoder
      from decodeStrPairs_round d.decoder,
    decodeFieldPairs_round d.fields]

lemma decodeDevices_round (ds : List Device) :
    decodeDevices (ds.map deviceToJson) = some ds := by
  induction ds with
  | nil => rfl
  | cons d rest ih => simp [decodeDevices, jsonToDevice_round, ih]

lemma jsonToConfig_round (c : Config) :
    jsonToConfig (configToJson c) = some c := by
  show (decodeDevices (c.devices.map deviceToJson)).map
      (fun ds => (⟨ds⟩ : Config)) = some c
  rw [decodeDevices_round]
  rfl

/-! ## Claim C8 -/

/-- The empty registry document, `{"devices": []}`. -/
def emptyRegistryJson : Json := Json.obj [("devices", Json.arr [])]

/-- `DeviceConfig.load_config` (logger.py lines 20 to 25) over the
persisted store: none models a missing file, some r the outcome of
`json.load` on an existing file (a parsed document or a raised parse
error, which the method does not catch). -/
def loadConfig (store : Option (Except String Json)) : Except String Json :=
  match store with
  | none => Except.ok emptyRegistryJson
  | some r => r

/-- `DeviceConfig.__init__` (logger.py lines 16 to 18): stores the load
result; a raised parse error propagates. -/
def deviceConfigInit (store : Option (Except String Json)) :
    Except String Json :=
  loadConfig store

/-- The state `BLELogger.__init__` builds (config plus the date-stamped
data file name). -/
structure LoggerState where
  config : Json
  data_file : String

/-- `BLELogger.__init__` (logger.py lines 79 to 83): constructs the
DeviceConfig first; a raised parse error propagates. -/
def bleLoggerInit (store : Option (Except String Json)) (today : String) :
    Except String LoggerState :=
  (deviceConfigInit store).map
    (fun c => { config := c, data_file := "ble_data_" ++ today ++ ".csv" })

/-- `main` (logger.py lines 347 to 358): constructs the BLELogger before
dispatching any command; no handler catches a config parse error, so it
reaches the top level. -/
def mainStartup (store : Option (Except String Json)) (today : String) :
    Except String LoggerState :=
  bleLoggerInit store today

/-- C8 counterexample: a store holding malformed JSON makes the whole
program startup fail with the parse error; no layer converts or
contains it, so the process (not just one command) aborts. -/
theorem malformed_store_aborts_process_counterexample :
    mainStartup
      (some (Except.error "Expecting value: line 1 column 1 (char 0)"))
      "20261012" =
      Except.error "Expecting value: line 1 column 1 (char 0)" := rfl

/-- C8 as amended: a missing store loads as the empty registry; a
malformed store makes the JSON parse error propagate uncaught through
DeviceConfig and BLELogger construction to the program entry, aborting
the process with that error; a well-formed store loads as its parsed
document. -/
theorem loadConfig_spec :
    loadConfig none = Except.ok emptyRegistryJson
    ∧ emptyRegistryJson = configToJson ⟨[]⟩
    ∧ (∀ e today : String,
        mainStartup (some (Except.error e)) today = Except.error e)
    ∧ (∀ j : Json, ∀ today : String,
        mainStartup (some (Except.ok j)) today =
          Except.ok { config := j,
                      data_file := "ble_data_" ++ today ++ ".csv" }) :=
  ⟨rfl, rfl, fun _ _ => rfl, fun _ _ => rfl⟩

/-! ## Claim C9 -/

/-- The registries reachable through add_device / add_field calls from
the empty registry (failed add_device calls leave the registry as it
was, so only successful ones extend the reachable set). -/
inductive Reached : Config → Prop where
  | start : Reached ⟨[]⟩
  | addDev {c c2 : Config} {k ds m t : String} {sf : List (String × String)}
      {dev : Device} {saves : List Config} :
      Reached c → addDevice c k ds m t sf = (Except.ok dev, c2, saves) →
      Reached c2
  | addFld {c : Config} {k f s ds : String} {en : Bool} :
      Reached c → Reached (addField c k f s ds en).1

/-- C9: for every registry built by a sequence of add_device and
add_field operations, serializing it as save_config does and reading
the document back yields the same registry. -/
theorem registry_roundtrip (c : Config) (h : Reached c) :
    jsonToConfig (configToJson c) = some c :=
  jsonToConfig_round c

/-- Witness for C9: a registry built by one add_device and one
add_field round-trips. -/
theorem registry_roundtrip_witness :
    Reached (addField
      (addDevice ⟨[]⟩ "k1" "fridge" "AA:BB:CC:DD:EE:FF" "H5074"
        [("name_pattern", "Govee_.*")]).2.1
      "k1" "temp_c" "temperature" "temp" true).1
    ∧ jsonToConfig (configToJson (addField
        (addDevice ⟨[]⟩ "k1" "fridge" "AA:BB:CC:DD:EE:FF" "H5074"
          [("name_pattern", "Govee_.*")]).2.1
        "k1" "temp_c" "temperature" "temp" true).1) =
      some (addField
        (addDevice ⟨[]⟩ "k1" "fridge" "AA:BB:CC:DD:EE:FF" "H5074"
          [("name_pattern", "Govee_.*")]).2.1
        "k1" "temp_c" "temperature" "temp" true).1 := by
  have h2 : Reached (addDevice ⟨[]⟩ "k1" "fridge" "AA:BB:CC:DD:EE:FF" "H5074"
      [("name_pattern", "Govee_.*")]).2.1 :=
    Reached.addDev Reached.start rfl
  have h3 : Reached (addField
      (addDevice ⟨[]⟩ "k1" "fridge" "AA:BB:CC:DD:EE:FF" "H5074"
        [("name_pattern", "Govee_.*")]).2.1
      "k1" "temp_c" "temperature" "temp" true).1 :=
    Reached.addFld h2
  exact ⟨h3, registry_roundtrip _ h3⟩
